import Mathlib

/-!
Shallow embedding of `src/publish.js`, a script that generates markdown
articles from the Gemini API and publishes them to dev.to. Pure string
manipulation is modelled by Lean functions on `String`/`List Char`; the
two network calls are modelled by passing the HTTP responses in as data,
and the orchestration loop (`main`) becomes a recursion over a list of
per-iteration responses that records the calls it makes, the error log
and the process exit code.
-/

namespace Publish

/-! ### JavaScript string primitives -/

/-- `isPre p l` is `true` iff `p` is a prefix of `l` (char-list level). -/
def isPre : List Char → List Char → Bool
  | [], _ => true
  | _ :: _, [] => false
  | a :: as, b :: bs => a = b && isPre as bs

/-- `hasSub sub l` is `true` iff `sub` occurs contiguously inside `l`.
Models JavaScript `l.includes(sub)`. -/
def hasSub (sub : List Char) : List Char → Bool
  | [] => isPre sub []
  | c :: t => isPre sub (c :: t) || hasSub sub t

/-- JavaScript `String.prototype.includes`. -/
def jsIncludes (s sub : String) : Bool :=
  hasSub sub.data s.data

/-- JavaScript `String.prototype.endsWith`. -/
def jsEndsWith (s suffixStr : String) : Bool :=
  isPre suffixStr.data.reverse s.data.reverse

/-- The characters matched by the JavaScript regex class `\s`
(WhiteSpace plus LineTerminator productions of ECMAScript). -/
def jsSpaceChar (c : Char) : Bool :=
  c = ' ' || c = '\t' || c = '\n' || c = '\x0b' || c = '\x0c' || c = '\r' ||
  c = '\u00A0' || c = '\u1680' || ('\u2000' ≤ c && c ≤ '\u200A') ||
  c = '\u2028' || c = '\u2029' || c = '\u202F' || c = '\u205F' ||
  c = '\u3000' || c = '\uFEFF'

/-- ECMAScript line terminators: the characters NOT matched by `.` in a
JavaScript regex (without the `s` flag). -/
def jsLineTerminator (c : Char) : Bool :=
  c = '\n' || c = '\r' || c = '\u2028' || c = '\u2029'

/-- JavaScript `String.prototype.trim`: strips `\s` characters from both
ends. -/
def jsTrim (s : String) : String :=
  String.mk (((s.data.dropWhile jsSpaceChar).reverse.dropWhile jsSpaceChar).reverse)

/-- `text.split("\n")[0] || ""` (publish.js line 84): the prefix of the
text up to the first newline. On the empty string the indexing yields
`""` and `|| ""` keeps it, so `takeWhile` models it exactly. -/
def firstLineOf (text : String) : String :=
  String.mk (text.data.takeWhile (fun c => c ≠ '\n'))

/-! ### The title-extraction regex

publish.js line 85 runs `/^\s*#\s+(.+?)\s*$/.exec(firstLine)` and uses the
first capture group. The closed form of that backtracking match:

* leading `\s*` must consume the maximal whitespace prefix (the next
  character has to be the non-whitespace `#`);
* after `#`, `\s+` greedily takes the maximal whitespace run, which must be
  non-empty; call `r` the remainder;
* if `r` is non-empty (it then starts with a non-space character), the lazy
  `(.+?)\s*$` captures `r` minus its maximal trailing-whitespace run,
  provided no captured character is a line terminator (which `.` cannot
  match); if a line terminator sits inside that trimmed core, no amount of
  backtracking produces a match;
* if `r` is empty (everything after `#` is whitespace), `\s+` backtracks and
  `(.+?)` captures a single whitespace character: the rightmost character of
  the run that is not a line terminator and is not the run's first character
  (`\s+` must keep at least one). -/

/-- Result of `/^\s*#\s+(.+?)\s*$/.exec(line)`: `some capture` on a match,
`none` otherwise. -/
def headingCapture (line : String) : Option String :=
  match line.data.dropWhile jsSpaceChar with
  | '#' :: tail =>
    let run := tail.takeWhile jsSpaceChar
    let r := tail.drop run.length
    if run.length = 0 then none
    else
      match r with
      | [] =>
        (match (run.drop 1).reverse.dropWhile jsLineTerminator with
         | c :: _ => some (String.mk [c])
         | [] => none)
      | _ :: _ =>
        let cap := (r.reverse.dropWhile jsSpaceChar).reverse
        if cap.all (fun c => !jsLineTerminator c) then some (String.mk cap)
        else none
  | _ => none

/-! ### Data model -/

/-- One element of the `briefs` array (publish.js lines 132-148), also the
argument shape of `generateArticle` (line 38). -/
structure TopicBrief where
  role : String
  focus : String
  length : String := "1200-1500 words"
deriving DecidableEq, Repr

/-- One element of `candidates[0].content.parts`; `text` may be absent. -/
structure GeminiPart where
  text : Option String
deriving DecidableEq, Repr

/-- `candidates[0].content`; `parts` may be absent. -/
structure GeminiContent where
  parts : Option (List GeminiPart)
deriving DecidableEq, Repr

/-- One element of `candidates`; `content` may be absent. -/
structure GeminiCandidate where
  content : Option GeminiContent
deriving DecidableEq, Repr

/-- The parsed JSON body of a Gemini response (`data` on line 77). -/
structure GeminiData where
  candidates : Option (List GeminiCandidate)
deriving DecidableEq, Repr

/-- The value returned by `generateArticle` (publish.js line 91). -/
structure GeneratedArticle where
  title : String
  markdown : String
  tags : List String
deriving DecidableEq, Repr

/-- `[s].join("\n")` for a list of strings (Array.prototype.join with
separator `"\n"`). -/
def joinNL : List String → String
  | [] => ""
  | [s] => s
  | s :: s2 :: rest => s ++ "\n" ++ joinNL (s2 :: rest)

/-- publish.js lines 78-80:
`data?.candidates?.[0]?.content?.parts?.map((p) => p.text).join("\n")?.trim() || ""`.
A broken optional chain yields `undefined`, turned into `""` by `|| ""`;
an absent `p.text` is rendered as `""` by `join`; a trimmed result of
`""` is falsy and `|| ""` keeps it `""`. -/
def extractText (d : GeminiData) : String :=
  match d.candidates with
  | some (c :: _) =>
    match c.content with
    | some ct =>
      match ct.parts with
      | some ps => jsTrim (joinNL (ps.map (fun p => p.text.getD "")))
      | none => ""
    | none => ""
  | _ => ""

/-- The fixed tag list (publish.js line 89). -/
def fixedTags : List String :=
  ["ai", "machinelearning", "career", "productivity", "programming"]

/-- publish.js lines 77-91, past the HTTP check: parse the response JSON
into a `GeneratedArticle`. `stamp` is the module-level date stamp. -/
def generateArticle (stamp : String) (b : TopicBrief) (d : GeminiData) :
    GeneratedArticle :=
  let text := extractText d
  { title :=
      match headingCapture (firstLineOf text) with
      | some g => g ++ " (" ++ stamp ++ ")"
      | none => "AI & Tech • " ++ b.role ++ " • " ++ stamp
    markdown := text
    tags := fixedTags }

/-! ### HTTP layer -/

/-- `res.ok` for a fetch response: status in the 2xx range. -/
def resOk (status : Nat) : Bool :=
  decide (200 ≤ status ∧ status < 300)

/-- A Gemini HTTP response as the script observes it: `status`/`ok`,
the body text read on failure, and the parsed JSON read on success. -/
structure GenHttp where
  status : Nat
  bodyText : String
  json : GeminiData
deriving DecidableEq, Repr

/-- publish.js lines 66-91 after the fetch returns: either the thrown
`Gemini error <status>: <body>` (lines 72-75) or the parsed article. -/
def generateArticleE (stamp : String) (b : TopicBrief) (r : GenHttp) :
    Except String GeneratedArticle :=
  if resOk r.status then .ok (generateArticle stamp b r.json)
  else .error ("Gemini error " ++ toString r.status ++ ": " ++ r.bodyText)

/-- The `article` payload sent to dev.to (publish.js lines 100-108).
`canonical_url` is passed as `undefined` by `main`, so it is omitted. -/
structure DevtoArticle where
  title : String
  published : Bool
  body_markdown : String
  tags : List String
deriving DecidableEq, Repr

/-- The parsed JSON of a dev.to response; `main` reads
`post?.url || post?.canonical_url || post?.id` for logging only. -/
structure PubData where
  url : Option String
  canonical_url : Option String
  id : Option String
deriving DecidableEq, Repr

/-- A dev.to HTTP response as the script observes it. -/
structure PubHttp where
  status : Nat
  bodyText : String
  json : PubData
deriving DecidableEq, Repr

/-- publish.js lines 110-125 after the fetch returns: either the thrown
`dev.to publish error <status>: <body>` (lines 119-122) or the parsed
response data. -/
def publishToDevToE (r : PubHttp) : Except String PubData :=
  if resOk r.status then .ok r.json
  else .error ("dev.to publish error " ++ toString r.status ++ ": " ++ r.bodyText)

/-! ### The orchestration loop (`main`, publish.js lines 128-179) -/

/-- The attribution footer (publish.js lines 157-158). -/
def footerOf (stamp : String) : String :=
  "\n\n---\n*Auto-published via GitHub Actions • Topic: AI + Tech News & AI Career Advice • " ++
  stamp ++ "*"

/-- publish.js line 156:
`title.includes(stamp) ? title : ` followed by the template
appending `" (" + stamp + ")"`. -/
def ensureStamp (stamp title : String) : String :=
  if jsIncludes title stamp then title else title ++ " (" ++ stamp ++ ")"

/-- publish.js line 159:
`markdown.endsWith(footer) ? markdown : markdown + footer`. -/
def ensureFooter (stamp markdown : String) : String :=
  if jsEndsWith markdown (footerOf stamp) then markdown
  else markdown ++ footerOf stamp

/-- The normalized payload `main` hands to `publishToDevTo`
(publish.js lines 155-166). -/
def mkPayload (stamp : String) (art : GeneratedArticle) : DevtoArticle :=
  { title := ensureStamp stamp art.title
    published := true
    body_markdown := ensureFooter stamp art.markdown
    tags := art.tags }

deriving instance DecidableEq for Except

/-- What one run of the loop did: the generation requests issued, the
publish requests issued (in order), and the outcome (`.error e` when the
run aborted by a thrown error `e`). -/
structure RunTrace where
  genCalls : List TopicBrief
  pubCalls : List DevtoArticle
  result : Except String Unit
deriving DecidableEq, Repr

/-- The `for` loop of `main` (publish.js lines 150-171), with the network
abstracted: each iteration consumes the brief together with the responses
the two endpoints would give. A thrown error stops the recursion. -/
def runLoop (stamp : String) :
    List (TopicBrief × GenHttp × PubHttp) → RunTrace
  | [] => ⟨[], [], .ok ()⟩
  | (b, g, p) :: rest =>
    match generateArticleE stamp b g with
    | .error e => ⟨[b], [], .error e⟩
    | .ok art =>
      let payload := mkPayload stamp art
      match publishToDevToE p with
      | .error e => ⟨[b], [payload], .error e⟩
      | .ok _ =>
        let t := runLoop stamp rest
        ⟨b :: t.genCalls, payload :: t.pubCalls, t.result⟩

/-- `main().catch(...)` exit code (publish.js lines 176-179): 1 on any
uncaught error, 0 on normal completion. -/
def exitCode : Except String Unit → Nat
  | .ok _ => 0
  | .error _ => 1

/-- `console.error(e)` in the top-level catch: the stderr lines a run's
outcome produces. -/
def errLog : Except String Unit → List String
  | .ok _ => []
  | .error e => [e]

/-! ### Startup credential check (publish.js lines 5-15) -/

/-- JavaScript truthiness of `process.env.X` as a string-or-undefined:
`!X` is `true` when the variable is absent or the empty string. -/
def envFalsy : Option String → Bool
  | none => true
  | some s => s = ""

/-- publish.js lines 8-15: the first missing-credential message, if any.
The script checks `DEVTO_API_KEY` first and exits immediately, so at most
one message is printed. -/
def startupError (devtoKey geminiKey : Option String) : Option String :=
  if envFalsy devtoKey then some "Missing DEVTO_API_KEY"
  else if envFalsy geminiKey then some "Missing GEMINI_API_KEY"
  else none

/-- A whole process run: stderr lines and exit code, plus the network
calls attempted. -/
structure ProgramTrace where
  genCalls : List TopicBrief
  pubCalls : List DevtoArticle
  stderrLines : List String
  exit : Nat
deriving DecidableEq, Repr

/-- The whole script: credential check, then the loop over the briefs.
`process.exit(1)` at startup happens before any network call. -/
def runProgram (devtoKey geminiKey : Option String) (stamp : String)
    (envs : List (TopicBrief × GenHttp × PubHttp)) : ProgramTrace :=
  match startupError devtoKey geminiKey with
  | some msg => ⟨[], [], [msg], 1⟩
  | none =>
    let t := runLoop stamp envs
    ⟨t.genCalls, t.pubCalls, errLog t.result, exitCode t.result⟩

/-! ### Run constants (publish.js lines 21-25 and 132-148) -/

/-- `String(n).padStart(2, "0")`. -/
def pad2 (n : Nat) : String :=
  if (toString n).length < 2 then "0" ++ toString n else toString n

/-- The date stamp `yyyy-mm-dd` (publish.js lines 21-25), as a function of
the UTC date components. -/
def mkStamp (yyyy mm dd : Nat) : String :=
  toString yyyy ++ "-" ++ pad2 mm ++ "-" ++ pad2 dd

/-- The static `briefs` array (publish.js lines 132-148). -/
def briefs : List TopicBrief :=
  [{ role := "Weekly-style AI & Tech roundup (evergreen explainer edition)"
     focus := "Explain key AI trends shaping the past quarter, what they mean for developers and job seekers, and how to stay credible without chasing hype." }
  , { role := "Career playbook using AI"
      focus := "A practical guide to using AI to upskill (projects, portfolios, interview prep), with reproducible workflows and prompts." }
  , { role := "Tooling deep-dive"
      focus := "Compare 2–3 free AI tools for developers (e.g., code assistants, data wrangling, docs agents). Show hands-on examples and gotchas." }]

/-! ### Predicates used to state the claims -/

/-- The Gemini JSON lacks the `candidates[0].content.parts` chain, i.e.
the optional chain on publish.js lines 78-79 short-circuits. -/
def lacksFields (d : GeminiData) : Bool :=
  match d.candidates with
  | none => true
  | some [] => true
  | some (c :: _) =>
    match c.content with
    | none => true
    | some ct => ct.parts.isNone

/-- The text fragments of the first candidate (`parts.map((p) => p.text)`,
absent texts rendered `""`), when the chain is intact. -/
def fragmentsOf (d : GeminiData) : Option (List String) :=
  match d.candidates with
  | some (c :: _) =>
    match c.content with
    | some ct =>
      match ct.parts with
      | some ps => some (ps.map (fun p => p.text.getD ""))
      | none => none
    | none => none
  | _ => none

/-- Stated from the spec's words, for comparison with the code: the body is
the plain concatenation (no separator) of all returned text fragments, with
surrounding whitespace trimmed. -/
def specBodyText (d : GeminiData) : Option String :=
  (fragmentsOf d).map (fun fs => jsTrim (String.join fs))

/-- A response whose first candidate has two text fragments. -/
def dTwoParts : GeminiData :=
  ⟨some [⟨some ⟨some [⟨some "a"⟩, ⟨some "b"⟩]⟩⟩]⟩

/-! ### Helper lemmas -/

theorem isPre_self_append (p q : List Char) : isPre p (p ++ q) = true := by
  induction p with
  | nil => rfl
  | cons a as ih => simp [isPre, ih]

theorem hasSub_self_append (sub l2 : List Char) : hasSub sub (sub ++ l2) = true := by
  cases sub with
  | nil => cases l2 <;> simp [hasSub, isPre]
  | cons s ss => simp [hasSub, isPre, isPre_self_append]

theorem hasSub_mid (sub l2 l1 : List Char) :
    hasSub sub (l1 ++ (sub ++ l2)) = true := by
  induction l1 with
  | nil => simpa using hasSub_self_append sub l2
  | cons a t ih => simp [hasSub, ih]

theorem jsIncludes_mid (p sub q : String) : jsIncludes (p ++ sub ++ q) sub = true := by
  simpa [jsIncludes, String.data_append, List.append_assoc] using
    hasSub_mid sub.data q.data p.data

theorem jsIncludes_suffix_append (p sub : String) : jsIncludes (p ++ sub) sub = true := by
  simpa [jsIncludes, String.data_append] using hasSub_mid sub.data [] p.data

theorem jsEndsWith_append (a b : String) : jsEndsWith (a ++ b) b = true := by
  simp [jsEndsWith, String.data_append, List.reverse_append, isPre_self_append]

theorem extractText_of_lacksFields (d : GeminiData) (h : lacksFields d = true) :
    extractText d = "" := by
  obtain ⟨cands⟩ := d
  cases cands with
  | none => rfl
  | some cs =>
    cases cs with
    | nil => rfl
    | cons c cs2 =>
      obtain ⟨ct⟩ := c
      cases ct with
      | none => rfl
      | some content =>
        obtain ⟨ps⟩ := content
        cases ps with
        | none => rfl
        | some ps2 => simp [lacksFields] at h

/-! ### Claim theorems -/

/-- C1: whenever the first line of the generated text matches the heading
regex `/^\s*#\s+(.+?)\s*$/` with capture `g`, the title returned by
`generateArticle` is the heading text `g` followed by the date stamp in
parentheses. -/
theorem generateArticle_heading_title (stamp : String) (b : TopicBrief)
    (d : GeminiData) (g : String)
    (h : headingCapture (firstLineOf (extractText d)) = some g) :
    (generateArticle stamp b d).title = g ++ " (" ++ stamp ++ ")" := by
  simp [generateArticle, h]

/-- Witness for C1: first line `# My Title` yields `My Title (2024-05-01)`. -/
theorem generateArticle_heading_title_witness :
    (generateArticle "2024-05-01" ⟨"X", "Y", "1200-1500 words"⟩
        ⟨some [⟨some ⟨some [⟨some "# My Title\nBody content"⟩]⟩⟩]⟩).title =
      "My Title (2024-05-01)" :=
  (generateArticle_heading_title "2024-05-01" ⟨"X", "Y", "1200-1500 words"⟩
    ⟨some [⟨some ⟨some [⟨some "# My Title\nBody content"⟩]⟩⟩]⟩ "My Title"
    (by decide)).trans (by decide)

/-- C2: whenever the first line of the generated text does not match the
heading regex, the title is the synthesized fallback combining the brief's
role and the date stamp. -/
theorem generateArticle_fallback_title (stamp : String) (b : TopicBrief)
    (d : GeminiData)
    (h : headingCapture (firstLineOf (extractText d)) = none) :
    (generateArticle stamp b d).title = "AI & Tech • " ++ b.role ++ " • " ++ stamp := by
  simp [generateArticle, h]

/-- Witness for C2: a response with no heading line falls back to
`AI & Tech • <role> • <stamp>`. -/
theorem generateArticle_fallback_title_witness :
    (generateArticle "2024-05-01" ⟨"Career playbook using AI", "Y", "1200-1500 words"⟩
        ⟨some [⟨some ⟨some [⟨some "No heading here\nbody"⟩]⟩⟩]⟩).title =
      "AI & Tech • Career playbook using AI • 2024-05-01" :=
  (generateArticle_fallback_title "2024-05-01" ⟨"Career playbook using AI", "Y", "1200-1500 words"⟩
    ⟨some [⟨some ⟨some [⟨some "No heading here\nbody"⟩]⟩⟩]⟩
    (by decide)).trans (by decide)

/-- C3: the footer-append step of the loop is idempotent: a body already
ending in the exact footer is returned unchanged, any other body gets the
footer appended, and applying the operation twice equals applying it once. -/
theorem ensureFooter_idempotent (stamp body : String) :
    (jsEndsWith body (footerOf stamp) = true → ensureFooter stamp body = body)
    ∧ (jsEndsWith body (footerOf stamp) = false →
        ensureFooter stamp body = body ++ footerOf stamp)
    ∧ ensureFooter stamp (ensureFooter stamp body) = ensureFooter stamp body := by
  refine ⟨fun h => by simp [ensureFooter, h], fun h => by simp [ensureFooter, h], ?_⟩
  by_cases h : jsEndsWith body (footerOf stamp) = true
  · simp [ensureFooter, h]
  · have h' : jsEndsWith body (footerOf stamp) = false := by simpa using h
    simp [ensureFooter, h', jsEndsWith_append]

/-- Witness for C3: a body not ending in the footer gets it appended. -/
theorem ensureFooter_idempotent_witness :
    ensureFooter "2024-05-01" "Hello" = "Hello" ++ footerOf "2024-05-01" :=
  (ensureFooter_idempotent "2024-05-01" "Hello").2.1 (by decide)

/-- C4: the title-stamp step of the loop is idempotent: a title already
containing the stamp anywhere is returned unchanged, any other title gets
` (stamp)` appended, and applying the operation twice equals applying it
once. -/
theorem ensureStamp_idempotent (stamp title : String) :
    (jsIncludes title stamp = true → ensureStamp stamp title = title)
    ∧ (jsIncludes title stamp = false →
        ensureStamp stamp title = title ++ " (" ++ stamp ++ ")")
    ∧ ensureStamp stamp (ensureStamp stamp title) = ensureStamp stamp title := by
  refine ⟨fun h => by simp [ensureStamp, h], fun h => by simp [ensureStamp, h], ?_⟩
  by_cases h : jsIncludes title stamp = true
  · simp [ensureStamp, h]
  · have h' : jsIncludes title stamp = false := by simpa using h
    have hin : jsIncludes (title ++ " (" ++ stamp ++ ")") stamp = true :=
      jsIncludes_mid (title ++ " (") stamp ")"
    simp [ensureStamp, h', hin]

/-- Witness for C4: a title already containing the stamp is unchanged. -/
theorem ensureStamp_idempotent_witness :
    ensureStamp "2024-05-01" "My Title (2024-05-01)" = "My Title (2024-05-01)" :=
  (ensureStamp_idempotent "2024-05-01" "My Title (2024-05-01)").1 (by decide)

/-- C5: the tag list returned by `generateArticle` is always exactly the
fixed 5-element list, independent of the brief and the response. -/
theorem generateArticle_fixed_tags (stamp : String) (b : TopicBrief) (d : GeminiData) :
    (generateArticle stamp b d).tags =
      ["ai", "machinelearning", "career", "productivity", "programming"] := rfl

/-- C6: if all iterations before some brief succeed and the generation API
answers that brief with a non-2xx status, then `generateArticle` fails with
an error carrying the status and body text, the run aborts with that error
and exit code 1, and the publish endpoint is hit exactly once per earlier
brief — never for the failing brief or any later one. -/
theorem runLoop_aborts_on_gen_error (stamp : String)
    (pre rest : List (TopicBrief × GenHttp × PubHttp))
    (b : TopicBrief) (g : GenHttp) (p : PubHttp)
    (hpre : ∀ e ∈ pre, resOk e.2.1.status = true ∧ resOk e.2.2.status = true)
    (hg : resOk g.status = false) :
    generateArticleE stamp b g =
      .error ("Gemini error " ++ toString g.status ++ ": " ++ g.bodyText)
    ∧ (runLoop stamp (pre ++ (b, g, p) :: rest)).result =
      .error ("Gemini error " ++ toString g.status ++ ": " ++ g.bodyText)
    ∧ exitCode (runLoop stamp (pre ++ (b, g, p) :: rest)).result = 1
    ∧ (runLoop stamp (pre ++ (b, g, p) :: rest)).pubCalls.length = pre.length := by
  have hgen : generateArticleE stamp b g =
      .error ("Gemini error " ++ toString g.status ++ ": " ++ g.bodyText) := by
    simp [generateArticleE, hg]
  induction pre with
  | nil =>
    exact ⟨hgen, by simp [runLoop, hgen], by simp [runLoop, hgen, exitCode],
      by simp [runLoop, hgen]⟩
  | cons e pre ih =>
    obtain ⟨b1, g1, p1⟩ := e
    have h1 : resOk g1.status = true := (hpre _ (List.mem_cons_self _ _)).1
    have h2 : resOk p1.status = true := (hpre _ (List.mem_cons_self _ _)).2
    have ih' := ih (fun e he => hpre e (List.mem_cons_of_mem _ he))
    have hgenok : generateArticleE stamp b1 g1 = .ok (generateArticle stamp b1 g1.json) := by
      simp [generateArticleE, h1]
    have hpubok : publishToDevToE p1 = .ok p1.json := by
      simp [publishToDevToE, h2]
    refine ⟨hgen, ?_, ?_, ?_⟩
    · simpa [runLoop, hgenok, hpubok] using ih'.2.1
    · simpa [runLoop, hgenok, hpubok] using ih'.2.2.1
    · simpa [runLoop, hgenok, hpubok] using ih'.2.2.2

/-- Witness for C6: a 500 `quota exceeded` answer on the first brief aborts
the run with exit code 1 and no publish call. -/
theorem runLoop_aborts_on_gen_error_witness :
    (runLoop "2024-05-01"
        [(⟨"X", "Y", "1200-1500 words"⟩, ⟨500, "quota exceeded", ⟨none⟩⟩,
          ⟨200, "", ⟨none, none, none⟩⟩)]).result =
      .error "Gemini error 500: quota exceeded"
    ∧ (runLoop "2024-05-01"
        [(⟨"X", "Y", "1200-1500 words"⟩, ⟨500, "quota exceeded", ⟨none⟩⟩,
          ⟨200, "", ⟨none, none, none⟩⟩)]).pubCalls.length = 0 := by
  have h := runLoop_aborts_on_gen_error "2024-05-01" [] []
    ⟨"X", "Y", "1200-1500 words"⟩ ⟨500, "quota exceeded", ⟨none⟩⟩
    ⟨200, "", ⟨none, none, none⟩⟩ (by simp) (by decide)
  exact ⟨h.2.1.trans (by decide), h.2.2.2.trans (by decide)⟩

/-- C7: a 2xx generation response whose JSON lacks the
`candidates[0].content.parts` chain does not make `generateArticle` fail:
it returns the article with empty markdown, the synthesized fallback title
and the fixed tags. -/
theorem generateArticleE_lenient_missing_fields (stamp : String) (b : TopicBrief)
    (r : GenHttp) (hok : resOk r.status = true) (hmiss : lacksFields r.json = true) :
    generateArticleE stamp b r =
      .ok { title := "AI & Tech • " ++ b.role ++ " • " ++ stamp
            markdown := ""
            tags := fixedTags } := by
  have htext := extractText_of_lacksFields r.json hmiss
  have hcap : headingCapture (firstLineOf "") = none := by decide
  simp [generateArticleE, hok, generateArticle, htext, hcap]

/-- Witness for C7: a 200 response with no `candidates` field degrades to an
empty body and the fallback title. -/
theorem generateArticleE_lenient_missing_fields_witness :
    generateArticleE "2024-05-01" ⟨"X", "Y", "1200-1500 words"⟩ ⟨200, "", ⟨none⟩⟩ =
      .ok { title := "AI & Tech • X • 2024-05-01", markdown := "", tags := fixedTags } :=
  (generateArticleE_lenient_missing_fields "2024-05-01" ⟨"X", "Y", "1200-1500 words"⟩
    ⟨200, "", ⟨none⟩⟩ (by decide) (by decide)).trans (by decide)

/-- C8: with either credential absent (or empty), the program exits with
status 1, makes no generation or publish call, and its stderr is the first
detected missing-credential message (DEVTO first, as the script checks). -/
theorem startup_missing_credential (devtoKey geminiKey : Option String)
    (stamp : String) (envs : List (TopicBrief × GenHttp × PubHttp))
    (h : envFalsy devtoKey = true ∨ envFalsy geminiKey = true) :
    runProgram devtoKey geminiKey stamp envs =
      ⟨[], [],
        [if envFalsy devtoKey then "Missing DEVTO_API_KEY" else "Missing GEMINI_API_KEY"],
        1⟩ := by
  by_cases hd : envFalsy devtoKey = true
  · simp [runProgram, startupError, hd]
  · have hg : envFalsy geminiKey = true := h.resolve_left hd
    have hd' : envFalsy devtoKey = false := by simpa using hd
    simp [runProgram, startupError, hd', hg]

/-- Witness for C8: both credentials missing exits 1 before any network
call, logging the first detected message. -/
theorem startup_missing_credential_witness :
    runProgram none none "2024-05-01" [] = ⟨[], [], ["Missing DEVTO_API_KEY"], 1⟩ :=
  (startup_missing_credential none none "2024-05-01" [] (Or.inl (by decide))).trans
    (by decide)

/-- C9 counterexample: with two text fragments `"a"` and `"b"`, the body the
code produces is `"a\nb"` (fragments joined with a newline), not the plain
concatenation `"ab"` the claim describes. -/
theorem generateArticle_markdown_plain_concat_false :
    specBodyText dTwoParts = some "ab"
    ∧ (generateArticle "2024-05-01" ⟨"X", "Y", "1200-1500 words"⟩ dTwoParts).markdown = "a\nb"
    ∧ ¬ some (generateArticle "2024-05-01" ⟨"X", "Y", "1200-1500 words"⟩
          dTwoParts).markdown = specBodyText dTwoParts := by
  decide

/-- C9 (amended): for every response whose `candidates[0].content.parts`
chain is intact, the produced body equals the text fragments joined with
newline separators, with surrounding whitespace trimmed. -/
theorem generateArticle_markdown_joins_fragments (stamp : String) (b : TopicBrief)
    (d : GeminiData) (fs : List String) (h : fragmentsOf d = some fs) :
    (generateArticle stamp b d).markdown = jsTrim (joinNL fs) := by
  obtain ⟨cands⟩ := d
  cases cands with
  | none => simp [fragmentsOf] at h
  | some cs =>
    cases cs with
    | nil => simp [fragmentsOf] at h
    | cons c cs2 =>
      obtain ⟨ct⟩ := c
      cases ct with
      | none => simp [fragmentsOf] at h
      | some content =>
        obtain ⟨ps⟩ := content
        cases ps with
        | none => simp [fragmentsOf] at h
        | some ps2 =>
          simp [fragmentsOf] at h
          simp [generateArticle, extractText, h]

/-- Witness for C9 (amended): a single fragment `"  Hello  "` yields the
trimmed body `"Hello"`. -/
theorem generateArticle_markdown_joins_fragments_witness :
    (generateArticle "2024-05-01" ⟨"X", "Y", "1200-1500 words"⟩
        ⟨some [⟨some ⟨some [⟨some "  Hello  "⟩]⟩⟩]⟩).markdown = "Hello" :=
  (generateArticle_markdown_joins_fragments "2024-05-01" ⟨"X", "Y", "1200-1500 words"⟩
    ⟨some [⟨some ⟨some [⟨some "  Hello  "⟩]⟩⟩]⟩ ["  Hello  "] (by decide)).trans
    (by decide)

/-- C10: every title `generateArticle` returns — heading-derived or
fallback — already contains the date stamp as a substring, so the loop's
defensive stamp-append (`ensureStamp`) is the identity on it. -/
theorem generateArticle_title_contains_stamp (stamp : String) (b : TopicBrief)
    (d : GeminiData) :
    jsIncludes (generateArticle stamp b d).title stamp = true
    ∧ ensureStamp stamp (generateArticle stamp b d).title =
        (generateArticle stamp b d).title := by
  have hin : jsIncludes (generateArticle stamp b d).title stamp = true := by
    cases hcap : headingCapture (firstLineOf (extractText d)) with
    | some g =>
      have ht : (generateArticle stamp b d).title = g ++ " (" ++ stamp ++ ")" := by
        simp [generateArticle, hcap]
      rw [ht]
      exact jsIncludes_mid (g ++ " (") stamp ")"
    | none =>
      have ht : (generateArticle stamp b d).title =
          "AI & Tech • " ++ b.role ++ " • " ++ stamp := by
        simp [generateArticle, hcap]
      rw [ht]
      exact jsIncludes_suffix_append ("AI & Tech • " ++ b.role ++ " • ") stamp
  exact ⟨hin, by simp [ensureStamp, hin]⟩

end Publish
